import Mathlib

/-!
Verification development for the `mcp_resolvepay_connector` repository.

We shallowly embed the HTTP request/retry/rate-limit/error-classification
pipeline of `src/mcp_resolvepay_connector/` in Lean:

* `http_client.py` — `ResolvepayHTTPClient._handle_response`,
  `_extract_error_message`, `_safe_json_decode`, `_prepare_headers`,
  `_request` (the retry loop);
* `auth.py` — `ResolvepayAuth.get_auth_headers`, `update_credentials`;
* `rate_limiter.py` — `RateLimiter.sync_wait_if_needed` (sequential model
  and a fine-grained interleaving model for the concurrency claim).

Python values appearing in responses are modelled by the inductive `Json`;
machine time is modelled by `ℚ`; `time.sleep` is idealised as advancing the
clock by exactly the requested amount.
-/

set_option autoImplicit false

/-- Decoded JSON values as produced by Python's `json` module: `None`, `bool`,
numbers (restricted to integers, the only numerals the claims exercise),
strings, lists and dicts (association lists, keys unique as `json.loads`
produces them). -/
inductive Json where
  | null : Json
  | bool (b : Bool) : Json
  | num (n : Int) : Json
  | str (s : String) : Json
  | arr (xs : List Json) : Json
  | obj (fields : List (String × Json)) : Json
deriving Repr

/-- Python truthiness of a decoded JSON value: `None`, `False`, `0`, `""`,
`[]` and an empty dict are falsy, everything else truthy. -/
def Json.truthy : Json → Bool
  | .null => false
  | .bool b => b
  | .num n => n != 0
  | .str s => s != ""
  | .arr xs => !xs.isEmpty
  | .obj fs => !fs.isEmpty

/-- Python `d.get(k)` / `k in d` / `d[k]` on a dict value: look the key up in
the association list. On non-dict values Python instead performs a substring
or membership test for `in` and raises `TypeError`/`AttributeError` for
subscripting and `.get`; this model returns `none` there, so every theorem
that quantifies over response bodies restricts them (via
`wellFormedErrorBody` or the branch it is confined to) so that this function
is applied only to values Python treats as dicts. -/
def Json.dictGet : Json → String → Option Json
  | .obj fs, k => fs.lookup k
  | _, _ => none

mutual
/-- Python `repr` of a decoded JSON value, as used by `str` on containers.
String escaping inside `repr` is not modelled (no claim input needs it). -/
def pyRepr : Json → String
  | .null => "None"
  | .bool true => "True"
  | .bool false => "False"
  | .num n => toString n
  | .str s => "\x27" ++ s ++ "\x27"
  | .arr xs => "[" ++ String.intercalate ", " (pyReprList xs) ++ "]"
  | .obj fs => "\x7b" ++ String.intercalate ", " (pyReprFields fs) ++ "\x7d"

/-- Helper of `pyRepr` for list elements. -/
def pyReprList : List Json → List String
  | [] => []
  | x :: t => pyRepr x :: pyReprList t

/-- Helper of `pyRepr` for dict entries. -/
def pyReprFields : List (String × Json) → List String
  | [] => []
  | (k, v) :: t => ("\x27" ++ k ++ "\x27: " ++ pyRepr v) :: pyReprFields t
end

/-- Python `str` of a decoded JSON value (as interpolated by an f-string):
scalars print plainly, containers print as their `repr`. -/
def pyStr : Json → String
  | .null => "None"
  | .bool true => "True"
  | .bool false => "False"
  | .num n => toString n
  | .str s => s
  | .arr xs => pyRepr (.arr xs)
  | .obj fs => pyRepr (.obj fs)

/-- Characters stripped by Python's `int(str)` conversion (ASCII whitespace). -/
def isPyWS (c : Char) : Bool :=
  c = ' ' || c = '\t' || c = '\n' || c = '\r' || c = '\x0b' || c = '\x0c'

/-- Strip leading and trailing ASCII whitespace from a character list. -/
def stripWS (l : List Char) : List Char :=
  ((l.dropWhile isPyWS).reverse.dropWhile isPyWS).reverse

/-- Value of a decimal digit character, `none` for non-digits. -/
def digitVal (c : Char) : Option Nat :=
  if c.isDigit then some (c.toNat - 48) else none

/-- Continue parsing decimal digits after at least one digit has been read.
A single underscore is allowed between two digits, as Python's `int` allows. -/
def parseDigRest (acc : Nat) : List Char → Option Nat
  | [] => some acc
  | '_' :: c :: t =>
    match digitVal c with
    | some d => parseDigRest (acc * 10 + d) t
    | none => none
  | c :: t =>
    match digitVal c with
    | some d => parseDigRest (acc * 10 + d) t
    | none => none

/-- Parse a non-empty run of decimal digits (with embedded underscores). -/
def parseDigits : List Char → Option Nat
  | [] => none
  | c :: t =>
    match digitVal c with
    | some d => parseDigRest d t
    | none => none

/-- Model of Python's `int(s)` for `str` arguments: strip ASCII whitespace,
accept an optional sign followed by decimal digits (single underscores
between digits allowed); `none` models the `ValueError` raise. -/
def pyInt (s : String) : Option Int :=
  match stripWS s.data with
  | '+' :: t => (parseDigits t).map Int.ofNat
  | '-' :: t => (parseDigits t).map (fun n => -(Int.ofNat n))
  | t => (parseDigits t).map Int.ofNat

/-- An HTTP response as seen by `_handle_response`. The field `parsed` models
the outcome of `response.json()`: `some j` when the body text is valid JSON
decoding to `j`, and `none` when `response.json()` raises `JSONDecodeError`. -/
structure Response where
  status_code : Nat
  headers : List (String × String)
  text : String
  parsed : Option Json
  url : String
  method : String

/-- ASCII lowercase of a character (sufficient for HTTP header names). -/
def lowerChar (c : Char) : Char :=
  if 'A' ≤ c ∧ c ≤ 'Z' then Char.ofNat (c.toNat + 32) else c

/-- ASCII lowercase of a string. -/
def lowerStr (s : String) : String :=
  String.mk (s.data.map lowerChar)

/-- Lookup of `response.headers.get(name)`: httpx header access is
case-insensitive, modelled by lowercasing both sides. -/
def headerGet (r : Response) (name : String) : Option String :=
  (r.headers.map (fun p => (lowerStr p.1, p.2))).lookup (lowerStr name)

/-- Transcription of `ResolvepayHTTPClient._safe_json_decode`: the decoded
JSON value, or an empty dict when decoding raises `JSONDecodeError`. -/
def safe_json_decode (r : Response) : Json :=
  r.parsed.getD (.obj [])

/-- The typed failures of `exceptions.py` as raised by the client:
`ResolvepayAuthenticationException`, `ResolvepayRateLimitException`,
`ResolvepayValidationException` (carrying its `details` dict content) and
`ResolvepayAPIException`. -/
inductive Failure where
  | authentication (message : String) : Failure
  | rateLimit (message : String) (retry_after : Option Int) : Failure
  | validation (message : String) (status_code : Nat) (response_data : Json) : Failure
  | api (status_code : Nat) (message : String) (response_data : Option Json) : Failure
deriving Repr

/-- An error escaping a client function: either one of the repository's typed
exceptions, or an untyped Python `ValueError` (as raised by `int()`). -/
inductive ErrOut where
  | typed (f : Failure) : ErrOut
  | valueError (message : String) : ErrOut
deriving Repr

/-- Python `str(e)` of an escaping error: the repository's exceptions pass
their message to `Exception.__init__`, and `ValueError` carries its message. -/
def ErrOut.pyMessage : ErrOut → String
  | .typed (.authentication m) => m
  | .typed (.rateLimit m _) => m
  | .typed (.validation m _ _) => m
  | .typed (.api _ m _) => m
  | .valueError m => m

/-- Transcription of the detail formatting inside
`ResolvepayHTTPClient._extract_error_message`: the f-string
`"{path}: {message}"` built with `d.get("path", "field")` and
`d.get("message", "error")`. For a non-dict entry `d` Python's `d.get`
raises `AttributeError` while this model yields the defaults; the theorem
quantifying over bodies (`validation_message_amended`) therefore requires
every details entry to be a dict with scalar `path`/`message` values
(`wellFormedErrorBody`), where this function is exact. -/
def detailStr (d : Json) : String :=
  (match d.dictGet "path" with
   | some v => pyStr v
   | none => "field") ++ ": " ++
  (match d.dictGet "message" with
   | some v => pyStr v
   | none => "error")

/-- Transcription of `ResolvepayHTTPClient._extract_error_message`. The
second argument is `response.text`. The model is exact on bodies within the
upstream error convention's shape (`wellFormedErrorBody`); outside it Python
raises on paths this total function collapses to fallback strings: a truthy
non-dict body makes `"error" in error_data` a substring/membership test
followed by a `TypeError` on subscripting, a non-dict `error` value or
non-dict details entry raises on `.get`, and a non-string `error.message`
with a non-empty details list raises `TypeError` on the `+=`. The theorem
quantifying over bodies (`validation_message_amended`) restricts its inputs
to the exact region; the claim-example and counterexample inputs lie inside
it. -/
def extract_error_message (error_data : Json) (text : String) : String :=
  if !error_data.truthy then
    (if text ≠ "" then text else "Unknown error")
  else
    match error_data.dictGet "error" with
    | some error_details =>
      let message :=
        match error_details.dictGet "message" with
        | some v => pyStr v
        | none => "Unknown error"
      (match error_details.dictGet "details" with
       | some (.arr ds) =>
         if !ds.isEmpty then
           message ++ " - " ++ String.intercalate ", " (ds.map detailStr)
         else message
       | some _ => message
       | none => message)
    | none =>
      match error_data.dictGet "message" with
      | some v => pyStr v
      | none => if text ≠ "" then text else "Unknown error"

/-- Transcription of `ResolvepayHTTPClient._handle_response`. Success returns
the mapping the Python function returns; an exception raised by the function
is an `ErrOut` in the error component. The branch order follows the source:
401, 429, 404, 400/422, other non-2xx (`httpx` defines `is_success` as
`200 <= status < 300`), 204, then the success body handling. -/
def handle_response (r : Response) : Except ErrOut Json :=
  if r.status_code = 401 then
    .error (.typed (.authentication "Authentication failed. Check merchant_id and api_key."))
  else if r.status_code = 429 then
    match headerGet r "Retry-After" with
    | none => .error (.typed (.rateLimit "Rate limit exceeded" none))
    | some s =>
      if s = "" then .error (.typed (.rateLimit "Rate limit exceeded" none))
      else
        match pyInt s with
        | some n => .error (.typed (.rateLimit "Rate limit exceeded" (some n)))
        | none =>
          .error (.valueError ("invalid literal for int() with base 10: \x27" ++ s ++ "\x27"))
  else if r.status_code = 404 then
    .error (.typed (.api 404 "Resource not found"
      (some (.obj [("url", .str r.url), ("method", .str r.method)]))))
  else if r.status_code = 400 ∨ r.status_code = 422 then
    let error_data := safe_json_decode r
    let error_message := extract_error_message error_data r.text
    let error_type :=
      if r.status_code = 400 then "Validation error" else "Business validation error"
    .error (.typed (.validation (error_type ++ ": " ++ error_message) r.status_code error_data))
  else if ¬ (200 ≤ r.status_code ∧ r.status_code < 300) then
    let error_data := safe_json_decode r
    let mv : Option Json :=
      if error_data.truthy then error_data.dictGet "message" else some (.str r.text)
    let error_message :=
      match mv with
      | some v =>
        if v.truthy then pyStr v
        else "API request failed with status " ++ toString r.status_code
      | none => "API request failed with status " ++ toString r.status_code
    .error (.typed (.api r.status_code error_message (some error_data)))
  else if r.status_code = 204 then
    .ok (.obj [])
  else if r.text ≠ "" then
    (if (safe_json_decode r).truthy then .ok (safe_json_decode r)
     else .ok (.obj [("raw_response", .str r.text)]))
  else
    .ok (.obj [])

/-- Alphabet of standard base64 as used by Python's `base64.b64encode`. -/
def b64Alphabet : List Char :=
  "ABCDEFGHIJKLMNOPQRSTUVWXYZabcdefghijklmnopqrstuvwxyz0123456789+/".data

/-- Character of a 6-bit group. -/
def b64Char (n : Nat) : Char := b64Alphabet.getD n 'A'

/-- Model of `base64.b64encode` on a byte list: emit 4 alphabet characters per
3 input bytes, padding the final group with `=`. -/
def b64EncodeBytes : List Nat → List Char
  | [] => []
  | [a] => [b64Char (a / 4), b64Char (a % 4 * 16), '=', '=']
  | [a, b] => [b64Char (a / 4), b64Char (a % 4 * 16 + b / 16), b64Char (b % 16 * 4), '=']
  | a :: b :: c :: t =>
    b64Char (a / 4) :: b64Char (a % 4 * 16 + b / 16) :: b64Char (b % 16 * 4 + c / 64) ::
      b64Char (c % 64) :: b64EncodeBytes t

/-- Inverse of the base64 alphabet. -/
def b64DecChar (c : Char) : Option Nat :=
  if 'A' ≤ c ∧ c ≤ 'Z' then some (c.toNat - 65)
  else if 'a' ≤ c ∧ c ≤ 'z' then some (c.toNat - 97 + 26)
  else if '0' ≤ c ∧ c ≤ '9' then some (c.toNat - 48 + 52)
  else if c = '+' then some 62
  else if c = '/' then some 63
  else none

/-- Model of `base64.b64decode` on canonical padded input: 4 characters per
group, the final group possibly padded with one or two `=`. -/
def b64DecodeChars : List Char → Option (List Nat)
  | [] => some []
  | c0 :: c1 :: c2 :: c3 :: t =>
    (b64DecChar c0).bind fun a =>
    (b64DecChar c1).bind fun b =>
    if c2 = '=' ∧ c3 = '=' ∧ t = [] then some [a * 4 + b / 16]
    else if c3 = '=' ∧ t = [] then
      (b64DecChar c2).bind fun c => some [a * 4 + b / 16, b % 16 * 16 + c / 4]
    else
      (b64DecChar c2).bind fun c =>
      (b64DecChar c3).bind fun d =>
      (b64DecodeChars t).map fun rest =>
        (a * 4 + b / 16) :: (b % 16 * 16 + c / 4) :: (c % 4 * 64 + d) :: rest
  | _ => none

/-- Transcription of `ResolvepayAuth.get_auth_headers` from `auth.py`.
Credentials are given as the UTF-8 byte sequences of `merchant_id` and
`api_key`; the byte 58 is the colon of `f"{merchant_id}:{api_key}"`, and the
base64 text is the decoded `b64encode` output. -/
def get_auth_headers (merchant_id api_key : List Nat) : List (String × String) :=
  let auth_string := merchant_id ++ 58 :: api_key
  let encoded_auth := String.mk (b64EncodeBytes auth_string)
  [("Authorization", "Basic " ++ encoded_auth),
   ("Content-Type", "application/json"),
   ("Accept", "application/json")]

/-- Credential state of `ResolvepayAuth` (the two stored fields). -/
structure ResolvepayAuth where
  merchant_id : String
  api_key : String
deriving Repr, DecidableEq

/-- Typed error of `auth.py`: `ResolvepayConfigurationException`. -/
inductive AuthError where
  | configuration (message : String) : AuthError
deriving Repr, DecidableEq

/-- Transcription of `ResolvepayAuth.update_credentials`: the empty-string
checks precede both field assignments, so a raise (the `some` error component)
leaves the credential state exactly as it was. -/
def update_credentials (auth : ResolvepayAuth) (merchant_id api_key : String) :
    ResolvepayAuth × Option AuthError :=
  if merchant_id = "" then (auth, some (.configuration "merchant_id cannot be empty"))
  else if api_key = "" then (auth, some (.configuration "api_key cannot be empty"))
  else ({ merchant_id := merchant_id, api_key := api_key }, none)

/-- Python `d[k] = v` on an ordered dict represented as an association list:
replace the value in place if the key is present, else append. -/
def dictSet : List (String × String) → String → String → List (String × String)
  | [], k, v => [(k, v)]
  | (k0, v0) :: t, k, v => if k0 = k then (k, v) :: t else (k0, v0) :: dictSet t k v

/-- Python `d.update(add)`: set every binding of `add` in order. -/
def dictUpdate (d add : List (String × String)) : List (String × String) :=
  add.foldl (fun acc kv => dictSet acc kv.1 kv.2) d

/-- Transcription of `ResolvepayHTTPClient._prepare_headers`: start from the
Credential Provider's headers and, when `additional_headers` is truthy
(present and non-empty), apply `headers.update(additional_headers)`. -/
def prepare_headers (auth_headers : List (String × String))
    (additional_headers : Option (List (String × String))) : List (String × String) :=
  match additional_headers with
  | none => auth_headers
  | some add => if add.isEmpty then auth_headers else dictUpdate auth_headers add

/-- State of `RateLimiter` from `rate_limiter.py`. Time instants are `ℚ`
(idealised `time.time()` values); `calls_per_second` is a Python `int`. -/
structure RateLimiter where
  calls_per_second : Int
  min_interval : ℚ
  last_call_time : Option ℚ
deriving Repr, DecidableEq

/-- Transcription of `RateLimiter.__init__`: `min_interval` is
`1.0 / calls_per_second` when positive, else `0`; no call recorded yet. -/
def RateLimiter.init (calls_per_second : Int) : RateLimiter :=
  { calls_per_second := calls_per_second,
    min_interval := if calls_per_second > 0 then 1 / (calls_per_second : ℚ) else 0,
    last_call_time := none }

/-- Transcription of `RateLimiter.sync_wait_if_needed` run without
interleaving, taking the `time.time()` value at entry and returning the state
after the write together with the completion time. Sleeping is idealised as
advancing the clock by exactly the requested wait. -/
def sync_wait_if_needed (rl : RateLimiter) (now : ℚ) : RateLimiter × ℚ :=
  if rl.calls_per_second ≤ 0 then (rl, now)
  else
    match rl.last_call_time with
    | none => ({ rl with last_call_time := some now }, now)
    | some last =>
      if now - last < rl.min_interval then
        let wait_time := rl.min_interval - (now - last)
        let now2 := now + wait_time
        ({ rl with last_call_time := some now2 }, now2)
      else ({ rl with last_call_time := some now }, now)

/-- Transcription of `RateLimiter.reset`. -/
def RateLimiter.reset (rl : RateLimiter) : RateLimiter :=
  { rl with last_call_time := none }

/-- Wait computed by the body of `sync_wait_if_needed` from the timestamp it
read and its `current_time`: zero when no previous call is recorded or the
interval has already elapsed, else the remaining deficit. -/
def syncWaitAmount (min_interval : ℚ) (ts : Option ℚ) (now : ℚ) : ℚ :=
  match ts with
  | none => 0
  | some last => if now - last < min_interval then min_interval - (now - last) else 0

/-- Local view of one thread executing `sync_wait_if_needed` (positive
ceiling path). `pc = 0`: before the reads; `pc = 1`: holding the values of
`current_time` (`rnow`) and `self.last_call_time` (`rts`) it read, sleeping if
needed; `pc = 2`: done, completed at time `fin`. -/
structure RaceThread where
  pc : Nat
  rnow : ℚ
  rts : Option ℚ
  fin : ℚ
deriving Repr, DecidableEq

/-- Shared state for three threads running `sync_wait_if_needed`
concurrently: the wall clock, the shared `last_call_time` field and the three
thread-local states. The source function takes no lock, so no lock component
exists to constrain the interleaving. -/
structure RaceCfg where
  time : ℚ
  last_call_time : Option ℚ
  thA : RaceThread
  thB : RaceThread
  thC : RaceThread
deriving Repr, DecidableEq

/-- Fine-grained interleaving semantics of `sync_wait_if_needed` (with
`calls_per_second > 0`, so the early return is not taken), one constructor
group per thread:

* `read*` performs `current_time = time.time()` and the read of
  `self.last_call_time` (merging the two reads is conservative: it only
  removes interleavings, so any execution exhibited here is one the source
  admits);
* `writeFast*` is the no-sleep path: the wait computed from the read values
  is zero and the function writes the `current_time` value it already holds;
* `writeSleep*` is the sleep path: the wait is positive, the sleep has
  elapsed (`rnow + wait ≤ time`), the function re-reads the clock and writes
  that value.

`tick` lets the wall clock advance. There is no mutual-exclusion premise
anywhere because the source's `sync_wait_if_needed` acquires no lock (the
`asyncio.Lock` of `wait_if_needed` is not used on this path). -/
inductive RaceStep (minInt : ℚ) : RaceCfg → RaceCfg → Prop where
  | tick (c : RaceCfg) (t2 : ℚ) (h : c.time ≤ t2) :
      RaceStep minInt c { c with time := t2 }
  | readA (c : RaceCfg) (h : c.thA.pc = 0) :
      RaceStep minInt c
        { c with thA := { pc := 1, rnow := c.time, rts := c.last_call_time, fin := 0 } }
  | writeFastA (c : RaceCfg) (h : c.thA.pc = 1)
      (hw : syncWaitAmount minInt c.thA.rts c.thA.rnow = 0) :
      RaceStep minInt c
        { c with thA := { c.thA with pc := 2, fin := c.time },
                 last_call_time := some c.thA.rnow }
  | writeSleepA (c : RaceCfg) (h : c.thA.pc = 1)
      (hw : 0 < syncWaitAmount minInt c.thA.rts c.thA.rnow)
      (ht : c.thA.rnow + syncWaitAmount minInt c.thA.rts c.thA.rnow ≤ c.time) :
      RaceStep minInt c
        { c with thA := { c.thA with pc := 2, fin := c.time },
                 last_call_time := some c.time }
  | readB (c : RaceCfg) (h : c.thB.pc = 0) :
      RaceStep minInt c
        { c with thB := { pc := 1, rnow := c.time, rts := c.last_call_time, fin := 0 } }
  | writeFastB (c : RaceCfg) (h : c.thB.pc = 1)
      (hw : syncWaitAmount minInt c.thB.rts c.thB.rnow = 0) :
      RaceStep minInt c
        { c with thB := { c.thB with pc := 2, fin := c.time },
                 last_call_time := some c.thB.rnow }
  | writeSleepB (c : RaceCfg) (h : c.thB.pc = 1)
      (hw : 0 < syncWaitAmount minInt c.thB.rts c.thB.rnow)
      (ht : c.thB.rnow + syncWaitAmount minInt c.thB.rts c.thB.rnow ≤ c.time) :
      RaceStep minInt c
        { c with thB := { c.thB with pc := 2, fin := c.time },
                 last_call_time := some c.time }
  | readC (c : RaceCfg) (h : c.thC.pc = 0) :
      RaceStep minInt c
        { c with thC := { pc := 1, rnow := c.time, rts := c.last_call_time, fin := 0 } }
  | writeFastC (c : RaceCfg) (h : c.thC.pc = 1)
      (hw : syncWaitAmount minInt c.thC.rts c.thC.rnow = 0) :
      RaceStep minInt c
        { c with thC := { c.thC with pc := 2, fin := c.time },
                 last_call_time := some c.thC.rnow }
  | writeSleepC (c : RaceCfg) (h : c.thC.pc = 1)
      (hw : 0 < syncWaitAmount minInt c.thC.rts c.thC.rnow)
      (ht : c.thC.rnow + syncWaitAmount minInt c.thC.rts c.thC.rnow ≤ c.time) :
      RaceStep minInt c
        { c with thC := { c.thC with pc := 2, fin := c.time },
                 last_call_time := some c.time }

/-- Configuration before any of the three acquirers has run: clock at 0, no
call recorded. -/
def raceInit : RaceCfg :=
  { time := 0, last_call_time := none,
    thA := { pc := 0, rnow := 0, rts := none, fin := 0 },
    thB := { pc := 0, rnow := 0, rts := none, fin := 0 },
    thC := { pc := 0, rnow := 0, rts := none, fin := 0 } }

/-- Configuration reached by: thread A completing a call at time 0, then
threads B and C both reading `last_call_time = some 0` at time `1/2` before
either wrote, both sleeping their computed deficit `1/2`, and both completing
at time 1. -/
def raceFinal : RaceCfg :=
  { time := 1, last_call_time := some 1,
    thA := { pc := 2, rnow := 0, rts := none, fin := 0 },
    thB := { pc := 2, rnow := 1/2, rts := some 0, fin := 1 },
    thC := { pc := 2, rnow := 1/2, rts := some 0, fin := 1 } }

/-- Transport-level outcome of one attempt inside
`ResolvepayHTTPClient._request`: a response object, or one of the exception
classes the `except` chain distinguishes (`httpx.TimeoutException`,
`httpx.ConnectError`, `httpx.HTTPStatusError`, `httpx.RequestError`, any
other `Exception`), each carrying its Python `str(e)`. -/
inductive Outcome where
  | resp (r : Response) : Outcome
  | timeoutExc (s : String) : Outcome
  | connectExc (s : String) : Outcome
  | statusExc (code : Nat) (s : String) : Outcome
  | requestExc (s : String) : Outcome
  | otherExc (s : String) : Outcome

/-- Retryable status codes of `_request`. -/
def retry_status_codes : List Nat := [429, 500, 502, 503, 504]

/-- Effect of `return self._handle_response(response)` at
`http_client.py:308`: the call sits inside the `try` block, so an exception
raised by `_handle_response` (every typed failure, and the `ValueError` from
`int()`) is caught by the `except Exception` clause at line 359 and re-raised
as `ResolvepayAPIException(500, f"Unexpected error: {str(e)}")`. -/
def handleResponseInRequest (r : Response) : Except ErrOut Json :=
  match handle_response r with
  | .ok j => .ok j
  | .error e => .error (.typed (.api 500 ("Unexpected error: " ++ e.pyMessage) none))

/-- Transcription of the retry loop of `ResolvepayHTTPClient._request`.
`outcomes k` is the transport outcome of the 0-indexed attempt `k`; `fuel` is
the number of loop iterations left (`max_retries + 1` at entry), and the
second component collects the `time.sleep(2 ** attempt)` backoffs in order.
The fuel-0 arm is the code after the loop: raise the synthesized exhaustion
failure when `last_exception` is set, else fall off the function (Python
returns `None`, modelled as `.ok .null`); it is reachable only if the final
iteration hit `continue`, which the `attempt < max_retries` guards rule out. -/
def requestLoop (max_retries timeout_s : Nat) (outcomes : Nat → Outcome) :
    Nat → Nat → Option String → Except ErrOut Json × List Nat
  | _, 0, last_exception =>
    (match last_exception with
     | some s =>
       .error (.typed (.api 503
         ("Request failed after " ++ toString max_retries ++ " retries: " ++ s) none))
     | none => .ok .null,
     [])
  | attempt, fuel + 1, last_exception =>
    match outcomes attempt with
    | .resp r =>
      if r.status_code ∈ retry_status_codes ∧ attempt < max_retries then
        let rest := requestLoop max_retries timeout_s outcomes (attempt + 1) fuel last_exception
        (rest.1, 2 ^ attempt :: rest.2)
      else (handleResponseInRequest r, [])
    | .timeoutExc s =>
      if attempt < max_retries then
        let rest := requestLoop max_retries timeout_s outcomes (attempt + 1) fuel (some s)
        (rest.1, 2 ^ attempt :: rest.2)
      else
        (.error (.typed (.api 408
          ("Request timeout after " ++ toString timeout_s ++ " seconds") none)), [])
    | .connectExc s =>
      if attempt < max_retries then
        let rest := requestLoop max_retries timeout_s outcomes (attempt + 1) fuel (some s)
        (rest.1, 2 ^ attempt :: rest.2)
      else (.error (.typed (.api 503 ("Connection error: " ++ s) none)), [])
    | .statusExc code s =>
      (.error (.typed (.api code ("HTTP status error: " ++ s) none)), [])
    | .requestExc s =>
      if attempt < max_retries then
        let rest := requestLoop max_retries timeout_s outcomes (attempt + 1) fuel (some s)
        (rest.1, 2 ^ attempt :: rest.2)
    else (.error (.typed (.api 500 ("Request error: " ++ s) none)), [])
    | .otherExc s =>
      (.error (.typed (.api 500 ("Unexpected error: " ++ s) none)), [])

/-- The retry/backoff/classification part of `_request`: run the loop from
attempt 0 with `max_retries + 1` iterations available and no exception seen. -/
def request (max_retries timeout_s : Nat) (outcomes : Nat → Outcome) :
    Except ErrOut Json × List Nat :=
  requestLoop max_retries timeout_s outcomes 0 (max_retries + 1) none

/-- Message extraction for 400/422 bodies as the amended claim states it:
when the decoded body is truthy and has an `error` key, the message is
`error.message` (stringified) when present and `"Unknown error"` otherwise,
with `" - "` and the comma-joined `"{path}: {message}"` entries appended when
`error.details` is a non-empty list; when the body has no `error` key, the
top-level `message` value is used when present; otherwise the raw response
text when non-empty; otherwise `"Unknown error"`. -/
def amendedValidationMessage (body : Json) (text : String) : String :=
  if body.truthy then
    match body.dictGet "error" with
    | some error_details =>
      let message :=
        match error_details.dictGet "message" with
        | some v => pyStr v
        | none => "Unknown error"
      (match error_details.dictGet "details" with
       | some (.arr ds) =>
         if ds.isEmpty then message
         else message ++ " - " ++ String.intercalate ", " (ds.map detailStr)
       | some _ => message
       | none => message)
    | none =>
      match body.dictGet "message" with
      | some v => pyStr v
      | none => if text = "" then "Unknown error" else text
  else if text = "" then "Unknown error" else text

/-- Values on which the model's `pyStr` coincides exactly with Python's
`str()`: `None`, booleans, integers and strings (containers go through
`repr`, whose string escaping the model does not reproduce). -/
def scalarJson : Json → Bool
  | .null => true
  | .bool _ => true
  | .num _ => true
  | .str _ => true
  | .arr _ => false
  | .obj _ => false

/-- Decoded 400/422 bodies within the upstream error convention's shape
(spec §6: `{"error": {"message": string, "details": [{"path", "message"},
...]}}` or `{"message": string}` or plain text), on which
`extract_error_message` is exact: a falsy body is always safe (the raw-text
fallback); a truthy body must be a dict (Python's `in` is a key test only
there and subscripting a non-dict raises `TypeError`); an `error` value must
be a dict (`.get` on anything else raises `AttributeError`); `error.message`
must be a string when `error.details` is a non-empty list (Python's `+=`
raises `TypeError` otherwise) and a scalar when the value is returned
as-is (exact `str()`); every entry of a details list must be a dict with
scalar `path`/`message` values; a top-level `message` value must be a
scalar. -/
def wellFormedErrorBody (body : Json) : Bool :=
  if !body.truthy then true
  else
    match body with
    | .obj _ =>
      (match body.dictGet "error" with
       | none =>
         (match body.dictGet "message" with
          | some v => scalarJson v
          | none => true)
       | some ed =>
         (match ed with
          | .obj _ =>
            (match ed.dictGet "details" with
             | some (.arr ds) =>
               if ds.isEmpty then
                 (match ed.dictGet "message" with
                  | some v => scalarJson v
                  | none => true)
               else
                 (match ed.dictGet "message" with
                  | some (.str _) => true
                  | some _ => false
                  | none => true) &&
                 ds.all (fun d =>
                   match d with
                   | .obj _ =>
                     (match d.dictGet "path" with
                      | some v => scalarJson v
                      | none => true) &&
                     (match d.dictGet "message" with
                      | some v => scalarJson v
                      | none => true)
                   | _ => false)
             | some _ =>
               (match ed.dictGet "message" with
                | some v => scalarJson v
                | none => true)
             | none =>
               (match ed.dictGet "message" with
                | some v => scalarJson v
                | none => true))
          | _ => false))
    | _ => false

/-- A 200 response whose body text `"null"` is valid JSON decoding to the
falsy value `None`. -/
def respNull200 : Response :=
  { status_code := 200, headers := [], text := "null", parsed := some .null,
    url := "https://api.example.com/v5/customers", method := "GET" }

/-- A 201 response with valid JSON body `"[1]"` decoding to a truthy value. -/
def respList201 : Response :=
  { status_code := 201, headers := [], text := "[1]", parsed := some (.arr [.num 1]),
    url := "https://api.example.com/v5/customers", method := "POST" }

/-- A 400 response whose body is the JSON object with an `error` key holding
an empty object: truthy body, `error` present, no `error.message`, no
top-level `message`, non-empty raw text. -/
def respErr400 : Response :=
  { status_code := 400, headers := [],
    text := "\x7b\"error\": \x7b\x7d\x7d",
    parsed := some (.obj [("error", .obj [])]),
    url := "https://api.example.com/v5/customers", method := "POST" }

/-- Body of the spec's 422 example:
`{"error":{"message":"bad","details":[{"path":"email","message":"invalid"}]}}`. -/
def valBodyEx : Json :=
  .obj [("error", .obj [("message", .str "bad"),
    ("details", .arr [.obj [("path", .str "email"), ("message", .str "invalid")]])])]

/-- The 422 response of the spec's example. -/
def respValEx422 : Response :=
  { status_code := 422, headers := [],
    text := "\x7b\"error\": \x7b\"message\": \"bad\", \"details\": [\x7b\"path\": \"email\", \"message\": \"invalid\"\x7d]\x7d\x7d",
    parsed := some valBodyEx,
    url := "https://api.example.com/v5/customers", method := "POST" }

/-- A 429 response whose `Retry-After` header is an HTTP-date, not an
integer. -/
def resp429date : Response :=
  { status_code := 429, headers := [("Retry-After", "Wed, 21 Oct 2015 07:28:00 GMT")],
    text := "", parsed := none,
    url := "https://api.example.com/v5/customers", method := "GET" }

/-- A 503 response with an empty body. -/
def resp503 : Response :=
  { status_code := 503, headers := [], text := "", parsed := none,
    url := "https://api.example.com/v5/customers", method := "GET" }

/-- A 418 response: a status outside the retryable set. -/
def resp418 : Response :=
  { status_code := 418, headers := [], text := "", parsed := none,
    url := "https://api.example.com/v5/customers", method := "GET" }

/-- The 200 response ending the retry example. -/
def respOk200 : Response :=
  { status_code := 200, headers := [], text := "[1]", parsed := some (.arr [.num 1]),
    url := "https://api.example.com/v5/customers", method := "GET" }

/-- Outcome sequence of the spec's retry example: two 503 responses followed
by a 200 response with a truthy JSON body. -/
def outcomes503x2then200 : Nat → Outcome :=
  fun k => if k < 2 then .resp resp503 else .resp respOk200

/-! Helper lemmas about Python dict assignment on association lists. -/

theorem lookup_dictSet_self (d : List (String × String)) (k v : String) :
    (dictSet d k v).lookup k = some v := by
  induction d with
  | nil => simp [dictSet, List.lookup]
  | cons kv t ih =>
    obtain ⟨k0, v0⟩ := kv
    by_cases h : k0 = k
    · simp [dictSet, h, List.lookup]
    · have hbf : (k == k0) = false := beq_eq_false_iff_ne.mpr (Ne.symm h)
      simp [dictSet, h, List.lookup, ih, hbf]

theorem lookup_dictSet_ne (d : List (String × String)) (k v k2 : String) (h : k2 ≠ k) :
    (dictSet d k v).lookup k2 = d.lookup k2 := by
  have hbf : (k2 == k) = false := beq_eq_false_iff_ne.mpr h
  induction d with
  | nil => simp [dictSet, List.lookup, hbf]
  | cons kv t ih =>
    obtain ⟨k0, v0⟩ := kv
    by_cases h0 : k0 = k
    · subst h0
      simp [dictSet, List.lookup, hbf]
    · simp [dictSet, h0, List.lookup, ih]

theorem lookup_dictUpdate_notMem (add : List (String × String)) (d : List (String × String))
    (k : String) (h : k ∉ add.map Prod.fst) :
    (dictUpdate d add).lookup k = d.lookup k := by
  induction add generalizing d with
  | nil => rfl
  | cons kv rest ih =>
    obtain ⟨k0, v0⟩ := kv
    have hk0 : k ≠ k0 := by
      intro e
      exact h (by simp [e])
    have hrest : k ∉ rest.map Prod.fst := by
      intro e
      exact h (by simp [e])
    calc (dictUpdate d ((k0, v0) :: rest)).lookup k
        = (dictUpdate (dictSet d k0 v0) rest).lookup k := rfl
      _ = (dictSet d k0 v0).lookup k := ih (dictSet d k0 v0) hrest
      _ = d.lookup k := lookup_dictSet_ne d k0 v0 k hk0

theorem lookup_dictUpdate_mem (add : List (String × String)) (d : List (String × String))
    (k v : String) (hnd : (add.map Prod.fst).Nodup) (hmem : (k, v) ∈ add) :
    (dictUpdate d add).lookup k = some v := by
  induction add generalizing d with
  | nil => cases hmem
  | cons kv rest ih =>
    obtain ⟨k0, v0⟩ := kv
    have hnd2 : (rest.map Prod.fst).Nodup := (List.nodup_cons.mp (by simpa using hnd)).2
    rcases List.mem_cons.mp hmem with he | hm
    · obtain ⟨e1, e2⟩ := Prod.mk.injEq .. ▸ he
      subst e1; subst e2
      have hknotin : k ∉ rest.map Prod.fst := (List.nodup_cons.mp (by simpa using hnd)).1
      calc (dictUpdate d ((k, v) :: rest)).lookup k
          = (dictUpdate (dictSet d k v) rest).lookup k := rfl
        _ = (dictSet d k v).lookup k := lookup_dictUpdate_notMem rest (dictSet d k v) k hknotin
        _ = some v := lookup_dictSet_self d k v
    · exact ih (dictSet d k0 v0) hnd2 hm

/-- C1 (counterexample). The claim predicts that a caller-supplied
`Authorization` header cannot override the Credential Provider's value; but
`_prepare_headers` merges with `dict.update`, so the caller's value wins:
with credentials `m` / `k` (bytes `[109]` / `[107]`, auth value
`Basic bTpr`) and caller headers `{"Authorization": "evil"}`, the sent
`Authorization` value is `evil`, not the provider's value. -/
theorem prepare_headers_caller_override_counterexample :
    (prepare_headers (get_auth_headers [109] [107])
      (some [("Authorization", "evil")])).lookup "Authorization" = some "evil" ∧
    (get_auth_headers [109] [107]).lookup "Authorization" = some "Basic bTpr" ∧
    ("evil" : String) ≠ "Basic bTpr" := by
  exact ⟨rfl, rfl, by decide⟩

/-- C1 (amended). The headers sent are the Credential Provider's headers
updated with the caller-supplied headers under `dict.update` semantics:
every caller-supplied key — including `Authorization`, `Content-Type` and
`Accept` — carries the caller's value in the merged mapping, and every other
key keeps the Credential Provider's value. -/
theorem prepare_headers_amended (auth_headers add : List (String × String))
    (hnd : (add.map Prod.fst).Nodup) :
    (∀ k v, (k, v) ∈ add → (prepare_headers auth_headers (some add)).lookup k = some v) ∧
    (∀ k, k ∉ add.map Prod.fst →
      (prepare_headers auth_headers (some add)).lookup k = auth_headers.lookup k) := by
  match add with
  | [] =>
    exact ⟨fun k v h => absurd h (List.not_mem_nil (k, v)), fun k _ => rfl⟩
  | kv :: rest =>
    constructor
    · intro k v hmem
      have : prepare_headers auth_headers (some (kv :: rest)) =
          dictUpdate auth_headers (kv :: rest) := rfl
      rw [this]
      exact lookup_dictUpdate_mem (kv :: rest) auth_headers k v hnd hmem
    · intro k hk
      have : prepare_headers auth_headers (some (kv :: rest)) =
          dictUpdate auth_headers (kv :: rest) := rfl
      rw [this]
      exact lookup_dictUpdate_notMem (kv :: rest) auth_headers k hk

/-- Witness for `prepare_headers_amended` at concrete headers. -/
theorem prepare_headers_amended_witness :
    (prepare_headers [("Authorization", "Basic x"), ("Accept", "application/json")]
      (some [("Authorization", "evil")])).lookup "Authorization" = some "evil" ∧
    (prepare_headers [("Authorization", "Basic x"), ("Accept", "application/json")]
      (some [("Authorization", "evil")])).lookup "Accept" = some "application/json" :=
  ⟨(prepare_headers_amended [("Authorization", "Basic x"), ("Accept", "application/json")]
      [("Authorization", "evil")] (by decide)).1 "Authorization" "evil" (by decide),
   ((prepare_headers_amended [("Authorization", "Basic x"), ("Accept", "application/json")]
      [("Authorization", "evil")] (by decide)).2 "Accept" (by decide)).trans rfl⟩

/-- C8. `update_credentials` with an empty argument raises the Configuration
error before any mutation — both stored fields are exactly as before — and
with two non-empty arguments swaps both fields and raises nothing. -/
theorem update_credentials_atomic (auth : ResolvepayAuth) (merchant_id api_key : String) :
    ((merchant_id = "" ∨ api_key = "") →
      (update_credentials auth merchant_id api_key).1 = auth ∧
      ∃ m, (update_credentials auth merchant_id api_key).2 = some (.configuration m)) ∧
    (merchant_id ≠ "" → api_key ≠ "" →
      update_credentials auth merchant_id api_key =
        ({ merchant_id := merchant_id, api_key := api_key }, none)) := by
  constructor
  · intro h
    have hcase : update_credentials auth merchant_id api_key =
        (auth, some (.configuration "merchant_id cannot be empty")) ∨
        update_credentials auth merchant_id api_key =
        (auth, some (.configuration "api_key cannot be empty")) := by
      by_cases hm : merchant_id = ""
      · left
        simp [update_credentials, hm]
      · right
        have hk : api_key = "" := h.resolve_left hm
        simp [update_credentials, hm, hk]
    rcases hcase with hc | hc <;> rw [hc] <;> exact ⟨rfl, _, rfl⟩
  · intro hm hk
    simp [update_credentials, hm, hk]

/-- Witness for `update_credentials_atomic`: an empty secret leaves the
stored credentials unchanged and yields a Configuration error. -/
theorem update_credentials_atomic_witness :
    (update_credentials ⟨"m0", "k0"⟩ "m1" "").1 = (⟨"m0", "k0"⟩ : ResolvepayAuth) ∧
    ∃ m, (update_credentials ⟨"m0", "k0"⟩ "m1" "").2 = some (.configuration m) :=
  (update_credentials_atomic ⟨"m0", "k0"⟩ "m1" "").1 (Or.inr rfl)

/-- C2 (counterexample). The body `"null"` is non-empty valid JSON, so the
claim predicts the decoded value is returned; the code instead returns
`{"raw_response": "null"}` because the `decoded or {...}` fallback tests
Python truthiness of the decoded value, and `None` is falsy. -/
theorem handle_response_success_truthy_counterexample :
    handle_response respNull200 = .ok (.obj [("raw_response", .str "null")]) ∧
    handle_response respNull200 ≠ .ok Json.null := by
  refine ⟨rfl, fun h => ?_⟩
  rw [show handle_response respNull200 = .ok (.obj [("raw_response", .str "null")]) from rfl] at h
  injection h with h2
  exact Json.noConfusion h2

/-- C2 (amended). For every 2xx response other than 204: an empty body yields
an empty mapping; a non-empty body whose decode result is truthy yields the
decoded value; a non-empty body whose decode result is falsy — invalid JSON
(decoding degrades to an empty dict) or valid JSON denoting a falsy value —
yields `{"raw_response": <text>}`. -/
theorem handle_response_success_amended (r : Response)
    (h1 : 200 ≤ r.status_code) (h2 : r.status_code < 300) (h3 : r.status_code ≠ 204) :
    (r.text = "" → handle_response r = .ok (.obj [])) ∧
    (r.text ≠ "" → (safe_json_decode r).truthy = true →
      handle_response r = .ok (safe_json_decode r)) ∧
    (r.text ≠ "" → (safe_json_decode r).truthy = false →
      handle_response r = .ok (.obj [("raw_response", .str r.text)])) := by
  have e401 : r.status_code ≠ 401 := by omega
  have e429 : r.status_code ≠ 429 := by omega
  have e404 : r.status_code ≠ 404 := by omega
  have e4xx : ¬ (r.status_code = 400 ∨ r.status_code = 422) := by omega
  have esucc : ¬ ¬ (200 ≤ r.status_code ∧ r.status_code < 300) := by omega
  refine ⟨?_, ?_, ?_⟩
  · intro ht
    simp [handle_response, e401, e429, e404, e4xx, esucc, h3, ht]
  · intro ht htr
    simp [handle_response, e401, e429, e404, e4xx, esucc, h3, ht, htr]
  · intro ht htr
    simp [handle_response, e401, e429, e404, e4xx, esucc, h3, ht, htr]

/-- Witness for `handle_response_success_amended`: a 201 response with body
`"[1]"` returns the decoded list. -/
theorem handle_response_success_amended_witness :
    handle_response respList201 = .ok (.arr [.num 1]) :=
  (handle_response_success_amended respList201 (by decide) (by decide)
    (by decide)).2.1 (by decide) rfl

/-- C10. On a 429 response: an absent or empty `Retry-After` header yields the
RateLimited failure with `retry_after` absent; a header accepted by Python's
`int()` yields the RateLimited failure carrying that integer; any other
present header value makes `int(retry_after)` raise an untyped `ValueError`
that escapes response handling instead of any typed failure. -/
theorem retry_after_parse_behavior (r : Response) (h429 : r.status_code = 429) :
    (headerGet r "Retry-After" = none →
      handle_response r = .error (.typed (.rateLimit "Rate limit exceeded" none))) ∧
    (headerGet r "Retry-After" = some "" →
      handle_response r = .error (.typed (.rateLimit "Rate limit exceeded" none))) ∧
    (∀ s n, headerGet r "Retry-After" = some s → pyInt s = some n →
      handle_response r = .error (.typed (.rateLimit "Rate limit exceeded" (some n)))) ∧
    (∀ s, headerGet r "Retry-After" = some s → s ≠ "" → pyInt s = none →
      handle_response r = .error (.valueError
        ("invalid literal for int() with base 10: \x27" ++ s ++ "\x27"))) := by
  refine ⟨?_, ?_, ?_, ?_⟩
  · intro h
    simp [handle_response, h429, h]
  · intro h
    simp [handle_response, h429, h]
  · intro s n hs hn
    have hs0 : s ≠ "" := by
      intro e
      rw [e, show pyInt "" = (none : Option Int) from rfl] at hn
      cases hn
    simp [handle_response, h429, hs, hs0, hn]
  · intro s hs hne hn
    simp [handle_response, h429, hs, hne, hn]

/-- Witness for `retry_after_parse_behavior`: an HTTP-date `Retry-After`
value escapes as a `ValueError`. -/
theorem retry_after_parse_behavior_witness :
    handle_response resp429date =
      .error (.valueError
        "invalid literal for int() with base 10: \x27Wed, 21 Oct 2015 07:28:00 GMT\x27") :=
  (retry_after_parse_behavior resp429date rfl).2.2.2 "Wed, 21 Oct 2015 07:28:00 GMT"
    (by decide) (by decide) (by decide)

/-- C7 (counterexample). On a 400 response whose body has an `error` key but
no `error.message` and no top-level `message`, the claim predicts the raw
response text is used; the code instead uses the `.get` default
`"Unknown error"` and never falls through to the later cases once the
`error` key exists. -/
theorem extract_error_message_fallback_counterexample :
    handle_response respErr400 =
      .error (.typed (.validation "Validation error: Unknown error" 400
        (.obj [("error", .obj [])]))) ∧
    "Validation error: Unknown error" ≠ "Validation error: " ++ respErr400.text := by
  exact ⟨rfl, by decide⟩

/-! Round trip of the base64 model. -/

theorem b64DecChar_b64Char : ∀ n : Nat, n < 64 → b64DecChar (b64Char n) = some n := by
  decide

theorem b64Char_ne_eq : ∀ n : Nat, n < 64 → b64Char n ≠ '=' := by
  decide

theorem b64_decode_encode : ∀ l : List Nat, (∀ x ∈ l, x < 256) →
    b64DecodeChars (b64EncodeBytes l) = some l
  | [], _ => rfl
  | [a], h => by
    have ha : a < 256 := h a (by simp)
    have d0 := b64DecChar_b64Char (a / 4) (by omega)
    have d1 := b64DecChar_b64Char (a % 4 * 16) (by omega)
    simp [b64EncodeBytes, b64DecodeChars, d0, d1]
    omega
  | [a, b], h => by
    have ha : a < 256 := h a (by simp)
    have hb : b < 256 := h b (by simp)
    have d0 := b64DecChar_b64Char (a / 4) (by omega)
    have d1 := b64DecChar_b64Char (a % 4 * 16 + b / 16) (by omega)
    have d2 := b64DecChar_b64Char (b % 16 * 4) (by omega)
    have n2 : b64Char (b % 16 * 4) ≠ '=' := b64Char_ne_eq _ (by omega)
    simp [b64EncodeBytes, b64DecodeChars, d0, d1, d2, n2]
    omega
  | a :: b :: c :: t, h => by
    have ha : a < 256 := h a (by simp)
    have hb : b < 256 := h b (by simp)
    have hc : c < 256 := h c (by simp)
    have ih := b64_decode_encode t (fun x hx => h x (by simp [hx]))
    have d0 := b64DecChar_b64Char (a / 4) (by omega)
    have d1 := b64DecChar_b64Char (a % 4 * 16 + b / 16) (by omega)
    have d2 := b64DecChar_b64Char (b % 16 * 4 + c / 64) (by omega)
    have d3 := b64DecChar_b64Char (c % 64) (by omega)
    have n2 : b64Char (b % 16 * 4 + c / 64) ≠ '=' := b64Char_ne_eq _ (by omega)
    have n3 : b64Char (c % 64) ≠ '=' := b64Char_ne_eq _ (by omega)
    simp [b64EncodeBytes, b64DecodeChars, d0, d1, d2, d3, n2, n3, ih]
    refine ⟨by omega, by omega, by omega⟩

/-- C9. With fixed non-empty credentials, `get_auth_headers` is a pure
function of the stored fields (repeated calls yield the identical mapping,
`Authorization` included), and base64-decoding the payload after the
`"Basic "` prefix yields exactly the bytes of `"{merchant_id}:{api_key}"`
(byte 58 is the colon). -/
theorem auth_headers_idempotent_roundtrip (merchant_id api_key : List Nat)
    (hm : ∀ x ∈ merchant_id, x < 256) (hk : ∀ x ∈ api_key, x < 256)
    (_hm0 : merchant_id ≠ []) (_hk0 : api_key ≠ []) :
    get_auth_headers merchant_id api_key = get_auth_headers merchant_id api_key ∧
    (get_auth_headers merchant_id api_key).lookup "Authorization" =
      some ("Basic " ++ String.mk (b64EncodeBytes (merchant_id ++ 58 :: api_key))) ∧
    b64DecodeChars (b64EncodeBytes (merchant_id ++ 58 :: api_key)) =
      some (merchant_id ++ 58 :: api_key) := by
  refine ⟨rfl, rfl, ?_⟩
  apply b64_decode_encode
  intro x hx
  rcases List.mem_append.mp hx with h1 | h2
  · exact hm x h1
  · rcases List.mem_cons.mp h2 with h3 | h4
    · omega
    · exact hk x h4

/-- Witness for `auth_headers_idempotent_roundtrip` at credentials
`m` (byte 109) and `k` (byte 107). -/
theorem auth_headers_idempotent_roundtrip_witness :
    (get_auth_headers [109] [107]).lookup "Authorization" =
      some ("Basic " ++ String.mk (b64EncodeBytes ([109] ++ 58 :: [107]))) ∧
    b64DecodeChars (b64EncodeBytes ([109] ++ 58 :: [107])) = some ([109] ++ 58 :: [107]) :=
  ⟨(auth_headers_idempotent_roundtrip [109] [107] (by decide) (by decide)
      (by decide) (by decide)).2.1,
   (auth_headers_idempotent_roundtrip [109] [107] (by decide) (by decide)
      (by decide) (by decide)).2.2⟩

/-! Helper lemmas on the sequential rate limiter. -/

theorem sync_wait_pos_state (rl : RateLimiter) (now : ℚ) (hpos : 0 < rl.calls_per_second) :
    (sync_wait_if_needed rl now).1 =
      { rl with last_call_time := some (sync_wait_if_needed rl now).2 } := by
  unfold sync_wait_if_needed
  rw [if_neg (by omega : ¬ rl.calls_per_second ≤ 0)]
  cases h : rl.last_call_time with
  | none => simp
  | some last =>
    by_cases hlt : now - last < rl.min_interval <;> simp [hlt]

theorem sync_wait_pos_time (rl : RateLimiter) (now last : ℚ)
    (hpos : 0 < rl.calls_per_second) (hl : rl.last_call_time = some last) :
    (sync_wait_if_needed rl now).2 =
      if now - last < rl.min_interval then last + rl.min_interval else now := by
  unfold sync_wait_if_needed
  rw [if_neg (by omega : ¬ rl.calls_per_second ≤ 0), hl]
  by_cases hlt : now - last < rl.min_interval
  · simp [hlt]
    ring
  · simp [hlt]

/-- C6. For a positive ceiling `cps`, two consecutive completed
`sync_wait_if_needed` calls (the second starting no earlier than the first's
completion `f1`) finish at least `1/cps` apart, the state after the second
call records its completion time as `last_call_time`, and an early second
call (arriving with deficit remaining) completes exactly at `f1 + 1/cps`
(it sleeps the remaining deficit); for a zero ceiling the call returns
immediately with no delay and no state change. -/
theorem rate_limiter_spacing :
    (∀ (cps : Int) (rl : RateLimiter) (t1 t2 : ℚ),
      0 < cps → rl.calls_per_second = cps → rl.min_interval = 1 / (cps : ℚ) →
      (sync_wait_if_needed rl t1).2 ≤ t2 →
      1 / (cps : ℚ) ≤ (sync_wait_if_needed (sync_wait_if_needed rl t1).1 t2).2 -
        (sync_wait_if_needed rl t1).2 ∧
      (sync_wait_if_needed (sync_wait_if_needed rl t1).1 t2).1.last_call_time =
        some (sync_wait_if_needed (sync_wait_if_needed rl t1).1 t2).2 ∧
      (t2 - (sync_wait_if_needed rl t1).2 < 1 / (cps : ℚ) →
        (sync_wait_if_needed (sync_wait_if_needed rl t1).1 t2).2 =
          (sync_wait_if_needed rl t1).2 + 1 / (cps : ℚ))) ∧
    (∀ (rl : RateLimiter) (t : ℚ), rl.calls_per_second = 0 →
      sync_wait_if_needed rl t = (rl, t)) := by
  constructor
  · intro cps rl t1 t2 hc hcps hmin ht2
    have hpos : 0 < rl.calls_per_second := by omega
    have hstate := sync_wait_pos_state rl t1 hpos
    have hpos2 : 0 < (sync_wait_if_needed rl t1).1.calls_per_second := by
      rw [hstate]; exact hpos
    have hl : (sync_wait_if_needed rl t1).1.last_call_time =
        some (sync_wait_if_needed rl t1).2 := by rw [hstate]
    have hmin2 : (sync_wait_if_needed rl t1).1.min_interval = 1 / (cps : ℚ) := by
      rw [hstate]; exact hmin
    have htime := sync_wait_pos_time (sync_wait_if_needed rl t1).1 t2
      (sync_wait_if_needed rl t1).2 hpos2 hl
    rw [hmin2] at htime
    have hcq : (0 : ℚ) < (cps : ℚ) := by exact_mod_cast hc
    have hminpos : (0 : ℚ) < 1 / (cps : ℚ) := by positivity
    have hstate2 := sync_wait_pos_state (sync_wait_if_needed rl t1).1 t2 hpos2
    refine ⟨?_, by rw [hstate2], ?_⟩
    · by_cases hlt : t2 - (sync_wait_if_needed rl t1).2 < 1 / (cps : ℚ)
      · rw [htime, if_pos hlt]; linarith
      · rw [htime, if_neg hlt]; linarith
    · intro hlt
      rw [htime, if_pos hlt]
  · intro rl t h
    unfold sync_wait_if_needed
    rw [if_pos (by omega : rl.calls_per_second ≤ 0)]

/-- Witness for `rate_limiter_spacing`: ceiling 2, both calls arriving at
time 0; the second completes at `1/2`. -/
theorem rate_limiter_spacing_witness :
    1 / ((2 : Int) : ℚ) ≤
      (sync_wait_if_needed (sync_wait_if_needed (RateLimiter.init 2) 0).1 0).2 -
        (sync_wait_if_needed (RateLimiter.init 2) 0).2 ∧
    (sync_wait_if_needed (sync_wait_if_needed (RateLimiter.init 2) 0).1 0).1.last_call_time =
      some (sync_wait_if_needed (sync_wait_if_needed (RateLimiter.init 2) 0).1 0).2 ∧
    ((0 : ℚ) - (sync_wait_if_needed (RateLimiter.init 2) 0).2 < 1 / ((2 : Int) : ℚ) →
      (sync_wait_if_needed (sync_wait_if_needed (RateLimiter.init 2) 0).1 0).2 =
        (sync_wait_if_needed (RateLimiter.init 2) 0).2 + 1 / ((2 : Int) : ℚ)) :=
  rate_limiter_spacing.1 2 (RateLimiter.init 2) 0 0 (by norm_num) rfl
    (by norm_num [RateLimiter.init]) (by norm_num [sync_wait_if_needed, RateLimiter.init])

/-! Race trace for the unsynchronized sync path of the rate limiter. -/

theorem raceTraceLemma : Relation.ReflTransGen (RaceStep 1) raceInit raceFinal := by
  have s1 : RaceStep 1 raceInit
      { time := 0, last_call_time := none,
        thA := { pc := 1, rnow := 0, rts := none, fin := 0 },
        thB := { pc := 0, rnow := 0, rts := none, fin := 0 },
        thC := { pc := 0, rnow := 0, rts := none, fin := 0 } } :=
    RaceStep.readA raceInit rfl
  have s2 : RaceStep 1
      { time := 0, last_call_time := none,
        thA := { pc := 1, rnow := 0, rts := none, fin := 0 },
        thB := { pc := 0, rnow := 0, rts := none, fin := 0 },
        thC := { pc := 0, rnow := 0, rts := none, fin := 0 } }
      { time := 0, last_call_time := some 0,
        thA := { pc := 2, rnow := 0, rts := none, fin := 0 },
        thB := { pc := 0, rnow := 0, rts := none, fin := 0 },
        thC := { pc := 0, rnow := 0, rts := none, fin := 0 } } :=
    RaceStep.writeFastA _ rfl rfl
  have s3 : RaceStep 1
      { time := 0, last_call_time := some 0,
        thA := { pc := 2, rnow := 0, rts := none, fin := 0 },
        thB := { pc := 0, rnow := 0, rts := none, fin := 0 },
        thC := { pc := 0, rnow := 0, rts := none, fin := 0 } }
      { time := 1/2, last_call_time := some 0,
        thA := { pc := 2, rnow := 0, rts := none, fin := 0 },
        thB := { pc := 0, rnow := 0, rts := none, fin := 0 },
        thC := { pc := 0, rnow := 0, rts := none, fin := 0 } } :=
    RaceStep.tick _ (1/2) (by norm_num)
  have s4 : RaceStep 1
      { time := 1/2, last_call_time := some 0,
        thA := { pc := 2, rnow := 0, rts := none, fin := 0 },
        thB := { pc := 0, rnow := 0, rts := none, fin := 0 },
        thC := { pc := 0, rnow := 0, rts := none, fin := 0 } }
      { time := 1/2, last_call_time := some 0,
        thA := { pc := 2, rnow := 0, rts := none, fin := 0 },
        thB := { pc := 1, rnow := 1/2, rts := some 0, fin := 0 },
        thC := { pc := 0, rnow := 0, rts := none, fin := 0 } } :=
    RaceStep.readB _ rfl
  have s5 : RaceStep 1
      { time := 1/2, last_call_time := some 0,
        thA := { pc := 2, rnow := 0, rts := none, fin := 0 },
        thB := { pc := 1, rnow := 1/2, rts := some 0, fin := 0 },
        thC := { pc := 0, rnow := 0, rts := none, fin := 0 } }
      { time := 1/2, last_call_time := some 0,
        thA := { pc := 2, rnow := 0, rts := none, fin := 0 },
        thB := { pc := 1, rnow := 1/2, rts := some 0, fin := 0 },
        thC := { pc := 1, rnow := 1/2, rts := some 0, fin := 0 } } :=
    RaceStep.readC _ rfl
  have s6 : RaceStep 1
      { time := 1/2, last_call_time := some 0,
        thA := { pc := 2, rnow := 0, rts := none, fin := 0 },
        thB := { pc := 1, rnow := 1/2, rts := some 0, fin := 0 },
        thC := { pc := 1, rnow := 1/2, rts := some 0, fin := 0 } }
      { time := 1, last_call_time := some 0,
        thA := { pc := 2, rnow := 0, rts := none, fin := 0 },
        thB := { pc := 1, rnow := 1/2, rts := some 0, fin := 0 },
        thC := { pc := 1, rnow := 1/2, rts := some 0, fin := 0 } } :=
    RaceStep.tick _ 1 (by norm_num)
  have s7 : RaceStep 1
      { time := 1, last_call_time := some 0,
        thA := { pc := 2, rnow := 0, rts := none, fin := 0 },
        thB := { pc := 1, rnow := 1/2, rts := some 0, fin := 0 },
        thC := { pc := 1, rnow := 1/2, rts := some 0, fin := 0 } }
      { time := 1, last_call_time := some 1,
        thA := { pc := 2, rnow := 0, rts := none, fin := 0 },
        thB := { pc := 2, rnow := 1/2, rts := some 0, fin := 1 },
        thC := { pc := 1, rnow := 1/2, rts := some 0, fin := 0 } } :=
    RaceStep.writeSleepB _ rfl (by norm_num [syncWaitAmount]) (by norm_num [syncWaitAmount])
  have s8 : RaceStep 1
      { time := 1, last_call_time := some 1,
        thA := { pc := 2, rnow := 0, rts := none, fin := 0 },
        thB := { pc := 2, rnow := 1/2, rts := some 0, fin := 1 },
        thC := { pc := 1, rnow := 1/2, rts := some 0, fin := 0 } }
      raceFinal :=
    RaceStep.writeSleepC _ rfl (by norm_num [syncWaitAmount]) (by norm_num [syncWaitAmount])
  exact .head s1 (.head s2 (.head s3 (.head s4 (.head s5 (.head s6 (.head s7 (.single s8)))))))

/-- C3 (counterexample). Starting from the idle configuration, the unlocked
`sync_wait_if_needed` admits an interleaving in which threads B and C both
read the same timestamp left by thread A's completed call, both compute
their waits from it, and both complete at the same instant — a spacing of 0,
below `min_interval = 1` — so the read-then-wait-then-write sequence is not
executed under mutual exclusion in the synchronous calling convention the
pipeline uses. -/
theorem sync_rate_limiter_race_counterexample :
    Relation.ReflTransGen (RaceStep 1) raceInit raceFinal ∧
    raceFinal.thB.pc = 2 ∧ raceFinal.thC.pc = 2 ∧
    raceFinal.thB.rts = some 0 ∧ raceFinal.thC.rts = raceFinal.thB.rts ∧
    raceFinal.thC.fin - raceFinal.thB.fin < 1 :=
  ⟨raceTraceLemma, rfl, rfl, rfl, rfl, by norm_num [raceFinal]⟩

/-- C3 (amended). The pipeline invokes the rate limiter through
`sync_wait_if_needed`, which performs the read-then-conditionally-wait-then-
write sequence on `last_call_timestamp` with no lock (only the separate
`async` variant takes the `asyncio.Lock`); hence two concurrent acquirers of
the synchronous convention can both compute their wait against the same
stale timestamp and complete less than `min_interval` apart, so the pipeline
is not safe to invoke concurrently from multiple callers sharing one
connector instance. -/
theorem sync_rate_limiter_unsynchronized_amended :
    ∃ c : RaceCfg, Relation.ReflTransGen (RaceStep 1) raceInit c ∧
      c.thB.pc = 2 ∧ c.thC.pc = 2 ∧
      c.thB.rts = some 0 ∧ c.thC.rts = some 0 ∧
      c.thB.fin - c.thC.fin < 1 ∧ c.thC.fin - c.thB.fin < 1 :=
  ⟨raceFinal, raceTraceLemma, rfl, rfl, rfl, rfl,
    by norm_num [raceFinal], by norm_num [raceFinal]⟩

/-! Pipeline retry loop lemmas. -/

theorem requestLoop_waits_shape (mr ts : Nat) (oc : Nat → Outcome) :
    ∀ (fuel attempt : Nat) (le : Option String), ∃ n,
      (requestLoop mr ts oc attempt fuel le).2 =
        (List.range' attempt n).map (fun k => 2 ^ k)
  | 0, attempt, le => ⟨0, rfl⟩
  | fuel + 1, attempt, le => by
    cases ho : oc attempt with
    | resp r =>
      by_cases hcond : r.status_code ∈ retry_status_codes ∧ attempt < mr
      · obtain ⟨n, hn⟩ := requestLoop_waits_shape mr ts oc fuel (attempt + 1) le
        refine ⟨n + 1, ?_⟩
        simp [requestLoop, ho, hcond, hn, List.range'_succ]
      · exact ⟨0, by simp [requestLoop, ho, hcond]⟩
    | timeoutExc s =>
      by_cases hcond : attempt < mr
      · obtain ⟨n, hn⟩ := requestLoop_waits_shape mr ts oc fuel (attempt + 1) (some s)
        refine ⟨n + 1, ?_⟩
        simp [requestLoop, ho, hcond, hn, List.range'_succ]
      · exact ⟨0, by simp [requestLoop, ho, hcond]⟩
    | connectExc s =>
      by_cases hcond : attempt < mr
      · obtain ⟨n, hn⟩ := requestLoop_waits_shape mr ts oc fuel (attempt + 1) (some s)
        refine ⟨n + 1, ?_⟩
        simp [requestLoop, ho, hcond, hn, List.range'_succ]
      · exact ⟨0, by simp [requestLoop, ho, hcond]⟩
    | statusExc code s => exact ⟨0, by simp [requestLoop, ho]⟩
    | requestExc s =>
      by_cases hcond : attempt < mr
      · obtain ⟨n, hn⟩ := requestLoop_waits_shape mr ts oc fuel (attempt + 1) (some s)
        refine ⟨n + 1, ?_⟩
        simp [requestLoop, ho, hcond, hn, List.range'_succ]
      · exact ⟨0, by simp [requestLoop, ho, hcond]⟩
    | otherExc s => exact ⟨0, by simp [requestLoop, ho]⟩

theorem requestLoop_first_nonretryable (mr ts : Nat) (oc : Nat → Outcome) :
    ∀ (d attempt fuel : Nat) (le : Option String) (r : Response),
      oc (attempt + d) = .resp r → r.status_code ∉ retry_status_codes →
      (∀ j, j < d → ∃ rj, oc (attempt + j) = .resp rj ∧
        rj.status_code ∈ retry_status_codes) →
      d < fuel → attempt + d ≤ mr →
      requestLoop mr ts oc attempt fuel le =
        (handleResponseInRequest r, (List.range' attempt d).map (fun k => 2 ^ k))
  | 0, attempt, fuel, le, r => by
    intro hr hnr hpre hfuel hle
    obtain ⟨fuel2, rfl⟩ : ∃ f2, fuel = f2 + 1 := ⟨fuel - 1, by omega⟩
    have h0 : oc attempt = .resp r := by simpa using hr
    have hcond : ¬ (r.status_code ∈ retry_status_codes ∧ attempt < mr) :=
      fun hc => hnr hc.1
    simp [requestLoop, h0, hcond]
  | d + 1, attempt, fuel, le, r => by
    intro hr hnr hpre hfuel hle
    obtain ⟨fuel2, rfl⟩ : ∃ f2, fuel = f2 + 1 := ⟨fuel - 1, by omega⟩
    obtain ⟨r0, hr0, hr0mem⟩ := hpre 0 (by omega)
    have h0 : oc attempt = .resp r0 := by simpa using hr0
    have hcond : r0.status_code ∈ retry_status_codes ∧ attempt < mr :=
      ⟨hr0mem, by omega⟩
    have ih := requestLoop_first_nonretryable mr ts oc d (attempt + 1) fuel2 le r
      (by rw [show attempt + 1 + d = attempt + (d + 1) from by omega]; exact hr)
      hnr
      (fun j hj => by
        have hp := hpre (j + 1) (by omega)
        rwa [show attempt + (j + 1) = attempt + 1 + j from by omega] at hp)
      (by omega) (by omega)
    simp [requestLoop, h0, hcond, ih, List.range'_succ]

/-- C4 (code_bug evidence). With `max_retries = 2` and every attempt
returning a 503 response, the loop backs off 1s then 2s and passes the final
503 to `_handle_response` — but the typed `ResolvepayAPIException(503, ...)`
the classifier raises is itself caught by the `except Exception` clause of
`_request` (the classification happens inside the `try` block), so what the
pipeline actually raises is `ResolvepayAPIException(500, "Unexpected error:
API request failed with status 503")`, not the classifier's status-503
Generic failure the claim (and the connector's own 404 handling in
`mcp_resolvepay_connector.py`) expects. -/
theorem request_retry_exhaustion_wraps_classifier_bug :
    request 2 30 (fun _ => .resp resp503) =
      (.error (.typed (.api 500
        "Unexpected error: API request failed with status 503" none)), [1, 2]) ∧
    handle_response resp503 =
      .error (.typed (.api 503 "API request failed with status 503"
        (some (.obj [])))) := by
  exact ⟨rfl, rfl⟩

/-- C5. Every backoff the retry loop performs at 0-indexed attempt `k` sleeps
exactly `2 ^ k` seconds (so any run's wait list is `[2^0, ..., 2^(n-1)]`);
a run whose first non-retryable outcome is the response of attempt `k`
(all earlier attempts returning retryable statuses) performs exactly the
waits `2^0 .. 2^(k-1)` and hands that response to response handling; and the
spec's example `[503, 503, 200]` with `max_retries = 3` waits exactly 1s then
2s and returns the decoded 200 body. -/
theorem request_backoff_and_retry_policy :
    (∀ (mr ts : Nat) (oc : Nat → Outcome), ∃ n,
      (request mr ts oc).2 = (List.range n).map (fun k => 2 ^ k)) ∧
    (∀ (mr ts k : Nat) (oc : Nat → Outcome) (r : Response),
      oc k = .resp r → r.status_code ∉ retry_status_codes → k ≤ mr →
      (∀ j, j < k → ∃ rj, oc j = .resp rj ∧ rj.status_code ∈ retry_status_codes) →
      request mr ts oc =
        (handleResponseInRequest r, (List.range k).map (fun j => 2 ^ j))) ∧
    request 3 30 outcomes503x2then200 = (.ok (.arr [.num 1]), [1, 2]) := by
  refine ⟨?_, ?_, ?_⟩
  · intro mr ts oc
    obtain ⟨n, hn⟩ := requestLoop_waits_shape mr ts oc (mr + 1) 0 none
    exact ⟨n, by simpa [request, List.range_eq_range'] using hn⟩
  · intro mr ts k oc r hr hnr hk hpre
    have h := requestLoop_first_nonretryable mr ts oc k 0 (mr + 1) none r
      (by simpa using hr) hnr (fun j hj => by simpa using hpre j hj)
      (by omega) (by omega)
    simpa [request, List.range_eq_range'] using h
  · rfl

/-- Witness for `request_backoff_and_retry_policy`: a first-attempt 418
response is never retried — no waits — and goes straight to response
handling. -/
theorem request_backoff_and_retry_policy_witness :
    request 1 30 (fun _ => .resp resp418) = (handleResponseInRequest resp418, []) := by
  have h := request_backoff_and_retry_policy.2.1 1 30 0 (fun _ => .resp resp418) resp418
    rfl (by decide) (by omega) (fun j hj => absurd hj (by omega))
  simpa using h

/-! Equivalence of the source's message extraction with the amended claim's
description of it. -/

theorem extract_eq_amended (body : Json) (text : String) :
    extract_error_message body text = amendedValidationMessage body text := by
  cases htr : body.truthy
  · by_cases ht : text = "" <;>
      simp [extract_error_message, amendedValidationMessage, htr, ht]
  · cases he : body.dictGet "error"
    · cases hm : body.dictGet "message"
      · by_cases ht : text = "" <;>
          simp [extract_error_message, amendedValidationMessage, htr, he, hm, ht]
      · simp [extract_error_message, amendedValidationMessage, htr, he, hm]
    · rename_i ed
      cases hd : ed.dictGet "details"
      · simp [extract_error_message, amendedValidationMessage, htr, he, hd]
      · rename_i dv
        cases dv <;>
          try simp [extract_error_message, amendedValidationMessage, htr, he, hd]
        rename_i ds
        cases hds : ds.isEmpty <;>
          simp [extract_error_message, amendedValidationMessage, htr, he, hd, hds]

/-- C7 (amended). For every 400 or 422 response whose decoded body lies in
the upstream error convention's shape (`wellFormedErrorBody`, the region on
which the extraction model is exact — outside it Python escapes with an
untyped `TypeError`/`AttributeError` instead of raising any Validation
failure), the classifier raises the Validation failure whose message is the
label (`"Validation error"` for 400, `"Business validation error"` for 422)
followed by `": "` and the extracted message, where the extraction is: when
the decoded body has an `error` key, `error.message` when present and
`"Unknown error"` otherwise — the top-level `message`/raw-text fallbacks are
not consulted in that case — with the `" - "`-prefixed, comma-joined
`"{path}: {message}"` details appended when `error.details` is a non-empty
list; when the body has no `error` key, the top-level `message` when
present, else the raw text when non-empty, else `"Unknown error"`; in
particular the spec's 422 example yields exactly
`"Business validation error: bad - email: invalid"`. -/
theorem validation_message_amended (r : Response)
    (h : r.status_code = 400 ∨ r.status_code = 422)
    (_hw : wellFormedErrorBody (safe_json_decode r) = true) :
    handle_response r = .error (.typed (.validation
      ((if r.status_code = 400 then "Validation error" else "Business validation error")
        ++ ": " ++ amendedValidationMessage (safe_json_decode r) r.text)
      r.status_code (safe_json_decode r))) ∧
    handle_response respValEx422 = .error (.typed (.validation
      "Business validation error: bad - email: invalid" 422 valBodyEx)) := by
  constructor
  · have e401 : r.status_code ≠ 401 := by rcases h with h | h <;> omega
    have e429 : r.status_code ≠ 429 := by rcases h with h | h <;> omega
    have e404 : r.status_code ≠ 404 := by rcases h with h | h <;> omega
    simp [handle_response, e401, e429, e404, h, extract_eq_amended]
  · rfl

/-- Witness for `validation_message_amended` at the spec's 422 example,
whose body is well formed. -/
theorem validation_message_amended_witness :
    handle_response respValEx422 = .error (.typed (.validation
      "Business validation error: bad - email: invalid" 422 valBodyEx)) :=
  (validation_message_amended respValEx422 (Or.inr rfl) (by decide)).2
